import Mathlib

/-!
Verification of the service abstraction and its type-erasure wrapper
(src/src/svc.rs).

Shallow embedding. The Rust trait `Service<Request>` has one operation,
`serve(&self, req) -> impl Future<Output = Result<Response, Error>>`.
All claims quantify over pure/deterministic implementers, so an in-flight
asynchronous operation is modelled by the value it eventually resolves to,
wrapped in a `Future` structure; `Box::pin` re-wraps that value with a
stable address, modelled by `boxPin` rebuilding the wrapper. A Rust
`Result<Response, Error>` is modelled as `Except Error Response`.

An implementer of the trait is modelled by its observable behaviour: a
`Service` record holding the `serve` function. The ownership wrappers
(`Arc<S>`, a static reference `&S`, `Box<S>`) are records holding the
wrapped implementer, each with a `serve` transliterated from the body of
the corresponding blanket `impl`. The hidden dispatch adapter `DynService`
holds the erased `serve_box` function, and `BoxService` holds its `inner`
adapter, with `new`, `clone`, `serve`, `boxed` and the `Debug` rendering
transliterated from the source.
-/

namespace Svc

/-- A completed in-flight asynchronous operation, modelled by the value the
executor eventually obtains from it. -/
structure Future (α : Type) : Type where
  poll : α
deriving Repr, DecidableEq

/-- Rust `Box::pin(fut)`: moves the operation into a pinned heap
allocation; the resolved value is unchanged. -/
def boxPin {α : Type} (fut : Future α) : Future α :=
  ⟨fut.poll⟩

/-- A (pure, deterministic) implementer of the trait `Service<Request>`,
modelled by its `serve` behaviour: `serve(&self, req)` resolves to
`Result<Response, Error>`. -/
structure Service (Request Response Error : Type) : Type where
  serve : Request → Future (Except Error Response)

/-- Rust `std::sync::Arc<S>`: shared-ownership, reference-counted pointer.
`as_ref` is the shared referent. -/
structure Arc (α : Type) : Type where
  as_ref : α

/-- `impl<S, Request> Service<Request> for Arc<S>` (src/src/svc.rs lines
28-42): `self.as_ref().serve(req)`. -/
def Arc.serve {Request Response Error : Type}
    (self : Arc (Service Request Response Error)) (req : Request) :
    Future (Except Error Response) :=
  self.as_ref.serve req

/-- A static reference `&S` to an implementer; `deref` is the referent. -/
structure StaticRef (α : Type) : Type where
  deref : α

/-- `impl<S, Request> Service<Request> for &S` (src/src/svc.rs lines
44-58): `(**self).serve(req)`. -/
def StaticRef.serve {Request Response Error : Type}
    (self : StaticRef (Service Request Response Error)) (req : Request) :
    Future (Except Error Response) :=
  self.deref.serve req

/-- Rust `Box<S>`: exclusively-owned heap allocation around an
implementer; `as_ref` is the boxed value. -/
structure Box (α : Type) : Type where
  as_ref : α

/-- `impl<S, Request> Service<Request> for Box<S>` (src/src/svc.rs lines
60-74): `self.as_ref().serve(req)`. -/
def Box.serve {Request Response Error : Type}
    (self : Box (Service Request Response Error)) (req : Request) :
    Future (Except Error Response) :=
  self.as_ref.serve req

/-- The hidden dispatch adapter trait `DynService<Request>` (src/src/svc.rs
lines 80-89), modelled by its one operation `serve_box`, which returns a
pinned, heap-allocated, type-erased in-flight operation. -/
structure DynService (Request Response Error : Type) : Type where
  serve_box : Request → Future (Except Error Response)

/-- The blanket `impl<Request, T> DynService<Request> for T where T:
Service<Request>` (src/src/svc.rs lines 91-104): `serve_box` is
`Box::pin(self.serve(req))`. -/
def Service.toDyn {Request Response Error : Type}
    (self : Service Request Response Error) :
    DynService Request Response Error :=
  ⟨fun req => boxPin (self.serve req)⟩

/-- `BoxService<Request, Response, Error>` (src/src/svc.rs lines 108-110):
a type-erased handle holding a shared, reference-counted `inner` pointer
to the hidden dispatch adapter. -/
structure BoxService (Request Response Error : Type) : Type where
  inner : DynService Request Response Error

/-- `BoxService::new` (src/src/svc.rs lines 120-131): wraps the given
implementer in a fresh shared allocation of its dispatch adapter. It is a
total function: it has no failure mode and returns no `Result`. -/
def BoxService.new {Request Response Error : Type}
    (service : Service Request Response Error) :
    BoxService Request Response Error :=
  ⟨service.toDyn⟩

/-- `impl Clone for BoxService` (src/src/svc.rs lines 112-118): clones the
shared `inner` pointer only — `Arc::clone` yields a pointer to the same
referent, so the clone holds the very same adapter (and implementer). -/
def BoxService.clone {Request Response Error : Type}
    (self : BoxService Request Response Error) :
    BoxService Request Response Error :=
  ⟨self.inner⟩

/-- `BoxService::serve` from `impl Service for BoxService` (src/src/svc.rs
lines 148-155): forwards to `self.inner.serve_box(req)`. -/
def BoxService.serve {Request Response Error : Type}
    (self : BoxService Request Response Error) (req : Request) :
    Future (Except Error Response) :=
  self.inner.serve_box req

/-- `Service::boxed` default method (src/src/svc.rs lines 22-26):
`BoxService::new(self)`. -/
def Service.boxed {Request Response Error : Type}
    (self : Service Request Response Error) :
    BoxService Request Response Error :=
  BoxService.new self

/-- `BoxService::boxed` override (src/src/svc.rs lines 157-160): returns
`self` unchanged. -/
def BoxService.boxed {Request Response Error : Type}
    (self : BoxService Request Response Error) :
    BoxService Request Response Error :=
  self

/-- `impl Service for BoxService` seen as an implementer value: its
observable `serve` behaviour (src/src/svc.rs lines 139-155). This is what
`BoxService::new` receives when a handle is itself used as the wrapped
implementer. -/
def BoxService.toService {Request Response Error : Type}
    (self : BoxService Request Response Error) :
    Service Request Response Error :=
  ⟨fun req => self.serve req⟩

/-- The builder returned by `Formatter::debug_struct(name)`: the struct
name plus the formatted fields added so far. -/
structure DebugStruct : Type where
  name : String
  fields : List (String × String)
deriving Repr, DecidableEq

/-- `DebugBuilder::finish` in non-alternate mode: with no fields the
output is just the struct name, otherwise `Name \x7b k: v, ... \x7d`. -/
def DebugStruct.finish (self : DebugStruct) : String :=
  match self.fields with
  | [] => self.name
  | fs =>
      self.name ++ " \x7b " ++
        String.intercalate ", " (fs.map (fun kv => kv.1 ++ ": " ++ kv.2)) ++
        " \x7d"

/-- `impl Debug for BoxService` (src/src/svc.rs lines 133-137):
`f.debug_struct("BoxService").finish()` — no field of the handle is added
to the builder. -/
def BoxService.fmt {Request Response Error : Type}
    (_self : BoxService Request Response Error) : String :=
  (DebugStruct.mk "BoxService" []).finish

/-- Many `serve` calls issued against one handle, one per listed request;
the abstraction layer holds no state, so the calls are independent. -/
def BoxService.serveAll {Request Response Error : Type}
    (self : BoxService Request Response Error) (reqs : List Request) :
    List (Future (Except Error Response)) :=
  reqs.map self.serve

end Svc

namespace Svc

/-- C1: for every implementer `I` of the capability contract and every
request `r`, `I.serve(r)` and `I.boxed().serve(r)` resolve to the same
Ok/Err outcome with equal payload, for any pure/deterministic `I`. -/
theorem boxed_serve_eq_serve
    (Request Response Error : Type)
    (I : Service Request Response Error) (r : Request) :
    ((Service.boxed I).serve r).poll = (I.serve r).poll :=
  rfl

/-- C2: for every implementer `S` and request `r`, `serve` through
`Arc<S>`, through a static reference `&S`, and through `Box<S>` each
yields exactly the outcome of `serve` on the bare implementer. -/
theorem wrapper_serve_eq_serve
    (Request Response Error : Type)
    (S : Service Request Response Error) (r : Request) :
    (Arc.mk S).serve r = S.serve r ∧
    (StaticRef.mk S).serve r = S.serve r ∧
    (Box.mk S).serve r = S.serve r :=
  ⟨rfl, rfl, rfl⟩

/-- C3: for every type-erased handle `h`, `h.boxed()` returns `h` itself
unchanged (no nested second layer of erasure), and every subsequent
`serve` on the returned handle behaves identically to `serve` on `h`. -/
theorem boxService_boxed_identity
    (Request Response Error : Type)
    (h : BoxService Request Response Error) :
    BoxService.boxed h = h ∧
    ∀ r : Request, (BoxService.boxed h).serve r = h.serve r :=
  ⟨rfl, fun _ => rfl⟩

/-- C4: every error value the implementer produces for a request surfaces
verbatim (same `Error` type, equal payload) to the caller who invokes
`serve` on the handle: the machinery neither wraps, translates,
suppresses, nor adds any error. -/
theorem error_surfaces_unchanged
    (Request Response Error : Type)
    (I : Service Request Response Error) (r : Request) (e : Error)
    (h : (I.serve r).poll = Except.error e) :
    ((Service.boxed I).serve r).poll = Except.error e := by
  simpa [Service.boxed, BoxService.new, BoxService.serve, Service.toDyn,
    boxPin] using h

/-- A concrete implementer that fails with the length of the request
(concrete scenario B of the spec). -/
def lenErrService : Service String Nat Nat :=
  ⟨fun s => ⟨Except.error s.length⟩⟩

/-- A concrete implementer that succeeds with the length of the
request. -/
def lenOkService : Service String Nat Nat :=
  ⟨fun s => ⟨Except.ok s.length⟩⟩

/-- Witness for C4: the length-reporting implementer fails with error
code 4 on request "ping", and that exact error surfaces unchanged through
the erased handle. -/
theorem error_surfaces_unchanged_witness :
    (lenErrService.serve "ping").poll = Except.error 4 ∧
    ((Service.boxed lenErrService).serve "ping").poll = Except.error 4 :=
  ⟨rfl, error_surfaces_unchanged String Nat Nat lenErrService "ping" 4 rfl⟩

/-- C5: cloning a handle duplicates no implementer state: the clone holds
the very same shared `inner` adapter, and `serve` on the clone with any
request yields exactly the outcome of `serve` on the original. -/
theorem clone_shares_inner
    (Request Response Error : Type)
    (h : BoxService Request Response Error) :
    (BoxService.clone h).inner = h.inner ∧
    ∀ r : Request, (BoxService.clone h).serve r = h.serve r :=
  ⟨rfl, fun _ => rfl⟩

/-- C6: handle construction via `new` always succeeds — `new` is a total
function into `BoxService` with no `Result` channel — and the returned
handle wraps the given implementer: its `inner` is exactly that
implementer behind the dispatch adapter, so its `serve` resolves to the
implementer's own outcome for every request. -/
theorem new_total_and_wraps
    (Request Response Error : Type)
    (I : Service Request Response Error) :
    (BoxService.new I).inner = Service.toDyn I ∧
    ∀ r : Request, ((BoxService.new I).serve r).poll = (I.serve r).poll :=
  ⟨rfl, fun _ => rfl⟩

/-- C7: the diagnostic rendering of a handle exposes no information about
the wrapped implementer: any two handles over the same parameter triple —
whatever distinct implementers they erase — render to the identical
string. -/
theorem fmt_opaque
    (Request Response Error : Type)
    (h₁ h₂ : BoxService Request Response Error) :
    BoxService.fmt h₁ = BoxService.fmt h₂ :=
  rfl

/-- C8: for a deterministic implementer behind one handle, each `serve`
call resolves to the outcome the implementer maps to that very request,
independently of every other call in the batch, and two calls with equal
requests yield equal outcomes. -/
theorem serve_no_crosstalk
    (Request Response Error : Type)
    (I : Service Request Response Error)
    (reqs : List Request) (i : Nat) (hi : i < reqs.length) :
    ((Service.boxed I).serveAll reqs)[i]? =
      some (boxPin (I.serve reqs[i])) ∧
    ∀ r₁ r₂ : Request, r₁ = r₂ →
      (Service.boxed I).serve r₁ = (Service.boxed I).serve r₂ := by
  constructor
  · simp [BoxService.serveAll, Service.boxed, BoxService.new,
      BoxService.serve, Service.toDyn, List.getElem?_eq_getElem hi]
  · intro r₁ r₂ hr
    rw [hr]

/-- Witness for C8: a batch of three distinct requests against one handle
over the length-reporting implementer; the middle call resolves to the
mapping of its own request. -/
theorem serve_no_crosstalk_witness :
    1 < (["a", "bb", "ccc"] : List String).length ∧
    (((Service.boxed lenOkService).serveAll ["a", "bb", "ccc"])[1]? =
        some (boxPin (Future.mk (Except.ok 2))) ∧
      ∀ r₁ r₂ : String, r₁ = r₂ →
        (Service.boxed lenOkService).serve r₁ =
          (Service.boxed lenOkService).serve r₂) :=
  ⟨by decide,
    serve_no_crosstalk String Nat Nat lenOkService
      ["a", "bb", "ccc"] 1 (by decide)⟩

/-- C9: the diagnostic rendering of every handle, whatever its three
generic parameters and whichever implementer it wraps, is exactly the
fixed string "BoxService". -/
theorem fmt_eq_boxService_string
    (Request Response Error : Type)
    (h : BoxService Request Response Error) :
    BoxService.fmt h = "BoxService" :=
  rfl

/-- C10: constructing a second handle directly via `new` around an
existing handle `h` (double erasure through the constructor, bypassing
the `boxed` short-circuit) changes no observable behaviour: the nested
handle resolves every request to exactly the outcome of `h.serve(r)`. -/
theorem nested_new_serve_eq
    (Request Response Error : Type)
    (h : BoxService Request Response Error) (r : Request) :
    ((BoxService.new (BoxService.toService h)).serve r).poll =
      (h.serve r).poll :=
  rfl

end Svc
